import Mathlib

/-!
Verification development for the rust-postgres client library.

The definitions below are a shallow embedding of the Rust sources:
`src/message.rs` (the frontend message codec), `src/lib.rs` (the blocking
session machine, transactions, statements, rows, copy-in, URL handling) and
`tokio-postgres/src/error/mod.rs` together with
`tokio-postgres/src/transaction.rs` (the asynchronous variant).

Byte strings are modelled as `List Nat` with every element below 256, machine
integers as `Nat`/`Int` reduced modulo 2 to the word size where the code
truncates, and the transport as an explicit trace: the backend side is a
`script : List BackendMessage` consumed left to right, and the frontend side
is the `sent : List FrontendMessage` list accumulated by an operation.
Reading from an exhausted script models a transport I/O failure (the code
marks the session desynchronized in that case, via its `try_desync!` macro).

`src/macros.rs`, `src/util.rs`, `src/url.rs` and the `types` module are not
part of the provided sources; the few behaviours taken from them
(`check_desync!` returning `PgStreamDesynchronized`, `bad_response!` setting
the flag, `parse_update_count`) are modelled from the specification and
marked as such in their doc comments.
-/

namespace RP

/-- Byte strings: each element is a byte value below 256. -/
abbrev Bytes := List Nat

/-- Big-endian encoding of an `i32`, two's complement (the value is reduced
modulo 2^32 first, as Rust's `write_be_i32` does bitwise). -/
def beI32 (n : Int) : Bytes :=
  let m := (n % (2 ^ 32 : Int)).toNat
  [m / 2 ^ 24 % 256, m / 2 ^ 16 % 256, m / 2 ^ 8 % 256, m % 256]

/-- Big-endian encoding of a `u32`. -/
def beU32 (n : Nat) : Bytes :=
  let m := n % 2 ^ 32
  [m / 2 ^ 24 % 256, m / 2 ^ 16 % 256, m / 2 ^ 8 % 256, m % 256]

/-- Big-endian encoding of an `i16`, two's complement. -/
def beI16 (n : Int) : Bytes :=
  let m := (n % (2 ^ 16 : Int)).toNat
  [m / 2 ^ 8 % 256, m % 256]

/-- Interpretation of a big-endian byte string as a natural number. -/
def beBytesToNat (bs : Bytes) : Nat :=
  bs.foldl (fun a b => a * 256 + b) 0

/-- UTF-8 encoding of a single code point. -/
def utf8Bytes (c : Nat) : Bytes :=
  if c < 0x80 then [c]
  else if c < 0x800 then [0xC0 + c / 64, 0x80 + c % 64]
  else if c < 0x10000 then
    [0xE0 + c / 4096, 0x80 + c / 64 % 64, 0x80 + c % 64]
  else
    [0xF0 + c / 262144, 0x80 + c / 4096 % 64, 0x80 + c / 64 % 64, 0x80 + c % 64]

/-- UTF-8 bytes of a string. -/
def strBytes (s : String) : Bytes :=
  (s.data.map (fun c => utf8Bytes c.toNat)).flatten

/-- The codec's `write_cstr`: UTF-8 bytes followed by a NUL terminator. -/
def writeCStr (s : String) : Bytes :=
  strBytes s ++ [0]

/-- A Postgres object identifier (`types::Oid`, a `u32`). -/
abbrev Oid := Nat

/-- `types::PostgresType` is only ever threaded through the session machine
by the claims at hand, so it is represented by its OID. -/
abbrev PostgresType := Oid

/-- Frontend messages, mirroring `message::FrontendMessage`. -/
inductive FrontendMessage where
  | bind (portal statement : String) (formats : List Int)
      (values : List (Option Bytes)) (resultFormats : List Int)
  | cancelRequest (code processId secretKey : Nat)
  | close (variant : Nat) (name : String)
  | copyData (data : Bytes)
  | copyDone
  | copyFail (message : String)
  | describe (variant : Nat) (name : String)
  | execute (portal : String) (maxRows : Int)
  | parse (name query : String) (paramTypes : List Oid)
  | passwordMessage (password : String)
  | query (q : String)
  | sslRequest (code : Nat)
  | startupMessage (version : Nat) (parameters : List (String × String))
  | sync
  | terminate
  deriving DecidableEq, Repr

/-- The body of `WriteMessage::write_message`: the match that fills the
payload buffer and records the optional type byte (`ident`). Byte values are
the ASCII codes used by the source: B=66, C=67, d=100, c=99, f=102, D=68,
E=69, P=80, p=112, Q=81, S=83, X=88. -/
def frontendBody : FrontendMessage → Option Nat × Bytes
  | .bind portal statement formats values resultFormats =>
      (some 66,
        writeCStr portal ++ writeCStr statement
          ++ beI16 (Int.ofNat formats.length)
          ++ (formats.map beI16).flatten
          ++ beI16 (Int.ofNat values.length)
          ++ (values.map (fun v =>
                match v with
                | none => beI32 (-1)
                | some value => beI32 (Int.ofNat value.length) ++ value)).flatten
          ++ beI16 (Int.ofNat resultFormats.length)
          ++ (resultFormats.map beI16).flatten)
  | .cancelRequest code processId secretKey =>
      (none, beU32 code ++ beU32 processId ++ beU32 secretKey)
  | .close variant name => (some 67, [variant] ++ writeCStr name)
  | .copyData data => (some 100, data)
  | .copyDone => (some 99, [])
  | .copyFail message => (some 102, writeCStr message)
  | .describe variant name => (some 68, [variant] ++ writeCStr name)
  | .execute portal maxRows => (some 69, writeCStr portal ++ beI32 maxRows)
  | .parse name q paramTypes =>
      (some 80,
        writeCStr name ++ writeCStr q
          ++ beI16 (Int.ofNat paramTypes.length)
          ++ (paramTypes.map beU32).flatten)
  | .passwordMessage password => (some 112, writeCStr password)
  | .query q => (some 81, writeCStr q)
  | .sslRequest code => (none, beU32 code)
  | .startupMessage version parameters =>
      (none,
        beU32 version
          ++ (parameters.map (fun kv => writeCStr kv.1 ++ writeCStr kv.2)).flatten
          ++ [0])
  | .sync => (some 83, [])
  | .terminate => (some 88, [])

/-- `WriteMessage::write_message`: emit the type byte when there is one, then
the big-endian `i32` length (payload length plus the four bytes of the length
field itself), then the payload. -/
def writeMessage (m : FrontendMessage) : Bytes :=
  let b := frontendBody m
  (match b.1 with
    | some ident => [ident]
    | none => []) ++ beI32 (Int.ofNat (b.2.length + 4)) ++ b.2

/-- Spec-side predicate for claim C6: the messages the spec says carry no
type byte are exactly the startup message, the SSL request and the cancel
request. -/
def noTypeByteSpec : FrontendMessage → Bool
  | .startupMessage _ _ => true
  | .sslRequest _ => true
  | .cancelRequest _ _ _ => true
  | _ => false

/-- An entry of a backend `RowDescription` message. -/
structure RowDescriptionEntry where
  name : String
  tableOid : Oid
  columnId : Int
  typeOid : Oid
  typeSize : Int
  typeModifier : Int
  format : Int
  deriving DecidableEq, Repr

/-- Backend messages, mirroring `message::BackendMessage`. -/
inductive BackendMessage where
  | authenticationCleartextPassword
  | authenticationGSS
  | authenticationKerberosV5
  | authenticationMD5Password (salt : Bytes)
  | authenticationOk
  | authenticationSCMCredential
  | authenticationSSPI
  | backendKeyData (processId secretKey : Nat)
  | bindComplete
  | closeComplete
  | commandComplete (tag : String)
  | copyInResponse (format : Nat) (columnFormats : List Nat)
  | dataRow (row : List (Option Bytes))
  | emptyQueryResponse
  | errorResponse (fields : List (Nat × String))
  | noData
  | noticeResponse (fields : List (Nat × String))
  | notificationResponse (pid : Nat) (channel payload : String)
  | parameterDescription (types : List Oid)
  | parameterStatus (parameter value : String)
  | parseComplete
  | portalSuspended
  | readyForQuery (state : Nat)
  | rowDescription (descriptions : List RowDescriptionEntry)
  deriving DecidableEq, Repr

/-- An asynchronous notification (`PostgresNotification`). -/
structure Notification where
  pid : Nat
  channel : String
  payload : String
  deriving DecidableEq, Repr

/-- Errors surfaced by session operations (the `PostgresError` variants the
claims exercise; `streamError` stands for `PgStreamError(io_error)`). -/
inductive PgError where
  | streamDesynchronized
  | streamError
  | badResponse
  | dbError (fields : List (Nat × String))
  | wrongParamCount (expected actual : Nat)
  | wrongTransaction
  | invalidColumn
  | toSqlError
  deriving DecidableEq, Repr

/-- The mutable state of `InnerPostgresConnection` that the claims touch.
The stream itself is externalised into the script/sent trace. -/
structure Conn where
  desynchronized : Bool
  finished : Bool
  transDepth : Nat
  nextStmtId : Nat
  canary : Nat
  notifications : List Notification
  deriving DecidableEq, Repr

instance {ε α : Type} [DecidableEq ε] [DecidableEq α] : DecidableEq (Except ε α) := fun x y =>
  match x, y with
  | .ok a, .ok b =>
      if h : a = b then isTrue (h ▸ rfl) else isFalse (fun hh => h (Except.ok.inj hh))
  | .error a, .error b =>
      if h : a = b then isTrue (h ▸ rfl) else isFalse (fun hh => h (Except.error.inj hh))
  | .ok _, .error _ => isFalse (fun h => Except.noConfusion h)
  | .error _, .ok _ => isFalse (fun h => Except.noConfusion h)

/-- The outcome of one public session operation: its result, the connection
state after it, the frontend messages it wrote to the transport, and the
part of the backend script it has not consumed. -/
structure OpOut (α : Type) where
  res : Except PgError α
  conn : Conn
  sent : List FrontendMessage
  script : List BackendMessage
  deriving DecidableEq, Repr

/-- Appending a notification to the session queue
(`NotificationResponse` handling in `read_message_`). -/
def pushNotif (c : Conn) (pid : Nat) (channel payload : String) : Conn :=
  { c with notifications := c.notifications ++ [⟨pid, channel, payload⟩] }

/-- Marking the session desynchronized. Modelled from the spec: the source's
`try_desync!`/`bad_response!` macros (src/macros.rs is not in the provided
sources) set the flag on a stream error or an unexpected message. -/
def markDesync (c : Conn) : Conn :=
  { c with desynchronized := true }

/-- `InnerPostgresConnection::read_message_`: reads from the script, absorbing
`NoticeResponse` (delivered to the notice handler), `NotificationResponse`
(queued) and `ParameterStatus` (logged), and returning the first other
message. An exhausted script is a transport failure: `try_desync!` sets the
desynchronized flag and the error propagates as a stream error. -/
def readLoop (c : Conn) : List BackendMessage →
    Except PgError BackendMessage × Conn × List BackendMessage
  | [] => (.error .streamError, markDesync c, [])
  | .noticeResponse _ :: rest => readLoop c rest
  | .notificationResponse pid ch pl :: rest => readLoop (pushNotif c pid ch pl) rest
  | .parameterStatus _ _ :: rest => readLoop c rest
  | m :: rest => (.ok m, c, rest)

/-- `InnerPostgresConnection::wait_for_ready`: one read; anything other than
`ReadyForQuery` is a bad response that desynchronizes the session. -/
def waitForReady (c : Conn) (script : List BackendMessage) :
    Except PgError Unit × Conn × List BackendMessage :=
  match readLoop c script with
  | (.ok (.readyForQuery _), c2, rest) => (.ok (), c2, rest)
  | (.ok _, c2, rest) => (.error .badResponse, markDesync c2, rest)
  | (.error e, c2, rest) => (.error e, c2, rest)

/-- The drain loop of `InnerPostgresConnection::quick_query`, with the
filtering of `read_message_` inlined (notices, notifications and parameter
status recurse exactly as the nested read loop does). Rows are kept as raw
byte cells; the source's lossy UTF-8 decoding of each cell is not modelled
since no claim depends on row contents. -/
def quickQueryLoop (c : Conn) (sent : List FrontendMessage)
    (acc : List (List (Option Bytes))) :
    List BackendMessage → OpOut (List (List (Option Bytes)))
  | [] => ⟨.error .streamError, markDesync c, sent, []⟩
  | m :: rest =>
    match m with
    | .noticeResponse _ => quickQueryLoop c sent acc rest
    | .notificationResponse pid ch pl => quickQueryLoop (pushNotif c pid ch pl) sent acc rest
    | .parameterStatus _ _ => quickQueryLoop c sent acc rest
    | .readyForQuery _ => ⟨.ok acc, c, sent, rest⟩
    | .dataRow row => quickQueryLoop c sent (acc ++ [row]) rest
    | .copyInResponse _ _ =>
        quickQueryLoop c
          (sent ++ [.copyFail ("COPY queries cannot be directly executed"), .sync]) acc rest
    | .errorResponse fields =>
        match waitForReady c rest with
        | (.ok _, c2, rest2) => ⟨.error (.dbError fields), c2, sent, rest2⟩
        | (.error e, c2, rest2) => ⟨.error e, c2, sent, rest2⟩
    | _ => quickQueryLoop c sent acc rest

/-- `InnerPostgresConnection::quick_query`: `check_desync!` first, then a
`Query` frame, then the drain loop. -/
def quickQuery (c : Conn) (q : String) (script : List BackendMessage) :
    OpOut (List (List (Option Bytes))) :=
  if c.desynchronized then ⟨.error .streamDesynchronized, c, [], script⟩
  else quickQueryLoop c [.query q] [] script

/-- `PostgresConnection::batch_execute`: reject inside a transaction, then
`quick_query`. -/
def batchExecute (c : Conn) (q : String) (script : List BackendMessage) :
    OpOut Unit :=
  if c.transDepth != 0 then ⟨.error .wrongTransaction, c, [], script⟩
  else
    let o := quickQuery c q script
    { o with res := o.res.map (fun _ => ()) }

/-- `PostgresConnection::transaction`: `check_desync!`, depth-0 check,
`quick_query("BEGIN")`, then the depth moves 0 to 1. The returned value is
the new handle's depth. -/
def connTransaction (c : Conn) (script : List BackendMessage) : OpOut Nat :=
  if c.desynchronized then ⟨.error .streamDesynchronized, c, [], script⟩
  else if c.transDepth != 0 then ⟨.error .wrongTransaction, c, [], script⟩
  else
    let o := quickQuery c ("BEGIN") script
    match o.res with
    | .error e => { o with res := .error e }
    | .ok _ =>
        { o with
          res := .ok 1
          conn := { o.conn with transDepth := o.conn.transDepth + 1 } }

/-- `PostgresTransaction::transaction` (nested begin): `check_desync!`, the
stack-discipline check, `quick_query("SAVEPOINT sp")` — the savepoint name in
the blocking source carries no depth suffix — then the depth increment. -/
def transTransaction (c : Conn) (depth : Nat) (script : List BackendMessage) :
    OpOut Nat :=
  if c.desynchronized then ⟨.error .streamDesynchronized, c, [], script⟩
  else if c.transDepth != depth then ⟨.error .wrongTransaction, c, [], script⟩
  else
    let o := quickQuery c ("SAVEPOINT sp") script
    match o.res with
    | .error e => { o with res := .error e }
    | .ok _ =>
        { o with
          res := .ok (depth + 1)
          conn := { o.conn with transDepth := o.conn.transDepth + 1 } }

/-- The query chosen by `PostgresTransaction::finish_inner` from the commit
flag and the handle depth (`self.depth != 1` distinguishes nested handles). -/
def finishQuery (commit : Bool) (depth : Nat) : String :=
  match commit, decide (depth ≠ 1) with
  | false, true => "ROLLBACK TO sp"
  | false, false => "ROLLBACK"
  | true, true => "RELEASE sp"
  | true, false => "COMMIT"

/-- `PostgresTransaction::finish_inner`: pick the query, decrement the depth
(before the query is issued, as in the source), then `quick_query`. -/
def transFinishInner (c : Conn) (commit : Bool) (depth : Nat)
    (script : List BackendMessage) : OpOut Unit :=
  let q := finishQuery commit depth
  let c := { c with transDepth := c.transDepth - 1 }
  let o := quickQuery c q script
  { o with res := o.res.map (fun _ => ()) }

/-- `PostgresConnection::finish`: set the finished flag, then `finish_inner`,
which is `check_desync!`, zeroing the canary and a `Terminate` frame. -/
def connFinish (c : Conn) (script : List BackendMessage) : OpOut Unit :=
  let c := { c with finished := true }
  if c.desynchronized then ⟨.error .streamDesynchronized, c, [], script⟩
  else ⟨.ok (), { c with canary := 0 }, [.terminate], script⟩

/-- Information about a result column (`ResultDescription`). -/
structure ResultDescription where
  name : String
  ty : PostgresType
  deriving DecidableEq, Repr

/-- A prepared statement (`PostgresStatement`), without the connection
back-reference, which the operations receive explicitly. -/
structure Statement where
  name : String
  paramTypes : List PostgresType
  resultDesc : List ResultDescription
  nextPortalId : Nat
  deriving DecidableEq, Repr

/-- A `COPY ... FROM STDIN` statement (`PostgresCopyInStatement`). -/
structure CopyInStatement where
  name : String
  columnTypes : List PostgresType
  deriving DecidableEq, Repr

/-- A value passed to `execute`: its `ToSql::to_sql` conversion against a
type descriptor, yielding `None` for SQL NULL, bytes otherwise, or an error. -/
abbrev ToSqlParam := PostgresType → Except PgError (Option Bytes)

/-- The parameter-encoding loop of `inner_execute`: `to_sql` each parameter
against the corresponding declared type, stopping at the first error. -/
def encodeParams : List (ToSqlParam × PostgresType) → Except PgError (List (Option Bytes))
  | [] => .ok []
  | (p, ty) :: rest =>
    match p ty with
    | .error e => .error e
    | .ok v =>
      match encodeParams rest with
      | .error e => .error e
      | .ok vs => .ok (v :: vs)

/-- Modelled from the spec: `util::parse_update_count` (src/util.rs is not in
the provided sources). The spec says the numeric parse of a CommandComplete
tag takes the last whitespace-delimited token as a non-negative integer, with
an absent or non-numeric tail yielding 0. -/
def parseUpdateCount (tag : String) : Nat :=
  match (tag.splitOn (" ")).getLast? with
  | some t => t.toNat?.getD 0
  | none => 0

/-- `PostgresStatement::inner_execute`: the parameter-count check comes
before the value conversion, which comes before any write; then
`Bind`/`Execute`/`Sync` and the `BindComplete` read. -/
def stmtInnerExecute (c : Conn) (stmt : Statement) (portalName : String)
    (rowLimit : Int) (params : List ToSqlParam) (script : List BackendMessage) :
    OpOut Unit :=
  if stmt.paramTypes.length != params.length then
    ⟨.error (.wrongParamCount stmt.paramTypes.length params.length), c, [], script⟩
  else
    match encodeParams (params.zip stmt.paramTypes) with
    | .error e => ⟨.error e, c, [], script⟩
    | .ok values =>
      let sent : List FrontendMessage :=
        [.bind portalName stmt.name [1] values [1], .execute portalName rowLimit, .sync]
      match readLoop c script with
      | (.ok .bindComplete, c2, rest) => ⟨.ok (), c2, sent, rest⟩
      | (.ok (.errorResponse fields), c2, rest) =>
          match waitForReady c2 rest with
          | (.ok _, c3, rest2) => ⟨.error (.dbError fields), c3, sent, rest2⟩
          | (.error e, c3, rest2) => ⟨.error e, c3, sent, rest2⟩
      | (.ok _, c2, rest) => ⟨.error .badResponse, markDesync c2, sent, rest⟩
      | (.error e, c2, rest) => ⟨.error e, c2, sent, rest⟩

/-- The drain loop of `PostgresStatement::execute` (again with the
`read_message_` filtering inlined): skip rows, fold a terminal tag into an
update count, reject a copy-in response, desynchronize on anything else. -/
def stmtExecuteLoop (c : Conn) (sent : List FrontendMessage) :
    List BackendMessage → OpOut Nat
  | [] => ⟨.error .streamError, markDesync c, sent, []⟩
  | m :: rest =>
    match m with
    | .noticeResponse _ => stmtExecuteLoop c sent rest
    | .notificationResponse pid ch pl => stmtExecuteLoop (pushNotif c pid ch pl) sent rest
    | .parameterStatus _ _ => stmtExecuteLoop c sent rest
    | .dataRow _ => stmtExecuteLoop c sent rest
    | .errorResponse fields =>
        match waitForReady c rest with
        | (.ok _, c2, rest2) => ⟨.error (.dbError fields), c2, sent, rest2⟩
        | (.error e, c2, rest2) => ⟨.error e, c2, sent, rest2⟩
    | .commandComplete tag =>
        match waitForReady c rest with
        | (.ok _, c2, rest2) => ⟨.ok (parseUpdateCount tag), c2, sent, rest2⟩
        | (.error e, c2, rest2) => ⟨.error e, c2, sent, rest2⟩
    | .emptyQueryResponse =>
        match waitForReady c rest with
        | (.ok _, c2, rest2) => ⟨.ok 0, c2, sent, rest2⟩
        | (.error e, c2, rest2) => ⟨.error e, c2, sent, rest2⟩
    | .copyInResponse _ _ =>
        stmtExecuteLoop c
          (sent ++ [.copyFail ("COPY queries cannot be directly executed"), .sync]) rest
    | _ => ⟨.error .badResponse, markDesync c, sent, rest⟩

/-- `PostgresStatement::execute`: `check_desync!` on the connection, then
`inner_execute("", 0, params)`, then the drain loop and `wait_for_ready`. -/
def stmtExecute (c : Conn) (stmt : Statement) (params : List ToSqlParam)
    (script : List BackendMessage) : OpOut Nat :=
  if c.desynchronized then ⟨.error .streamDesynchronized, c, [], script⟩
  else
    match stmtInnerExecute c stmt ("") 0 params script with
    | ⟨.error e, c2, sent, rest⟩ => ⟨.error e, c2, sent, rest⟩
    | ⟨.ok _, c2, sent, rest⟩ =>
        let o := stmtExecuteLoop c2 [] rest
        { o with sent := sent ++ o.sent }

/-- The per-row encoding loop of `PostgresCopyInStatement::execute`: values
and column types are consumed in lock step; running out of one before the
other is the invalid-column-count case, detected after the values so far were
already written into the buffer. -/
inductive RowEnc where
  | ok (buf : Bytes)
  | mismatch (buf : Bytes)
  | err (e : PgError)
  deriving DecidableEq, Repr

/-- Encode one copy-in row into the buffer against the column types. -/
def encodeRow : List ToSqlParam → List PostgresType → Bytes → RowEnc
  | [], [], buf => .ok buf
  | v :: vs, t :: ts, buf =>
    match v t with
    | .error e => .err e
    | .ok none => encodeRow vs ts (buf ++ beI32 (-1))
    | .ok (some value) => encodeRow vs ts (buf ++ beI32 (Int.ofNat value.length) ++ value)
  | _, _, buf => .mismatch buf

/-- The result of the labelled row loop of copy-in execute. -/
inductive CopyLoopOut where
  | done (sent : List FrontendMessage) (buf : Bytes)
  | aborted (sent : List FrontendMessage) (buf : Bytes)
  | failed (e : PgError) (sent : List FrontendMessage)
  deriving DecidableEq, Repr

/-- The labelled `'l` loop of `PostgresCopyInStatement::execute`: write the
tuple header, encode the row, send the accumulated buffer as `CopyData` and
start a fresh buffer; a column-count mismatch writes `CopyFail` and breaks
out of the loop (keeping the unsent partial buffer); a `to_sql` error aborts
the whole call. -/
def copyRows (types : List PostgresType) (sent : List FrontendMessage)
    (buf : Bytes) : List (List ToSqlParam) → CopyLoopOut
  | [] => .done sent buf
  | row :: more =>
    let buf := buf ++ beI16 (Int.ofNat types.length)
    match encodeRow row types buf with
    | .mismatch buf2 => .aborted (sent ++ [.copyFail ("Invalid column count")]) buf2
    | .err e => .failed e sent
    | .ok buf2 => copyRows types (sent ++ [.copyData buf2]) [] more

/-- The PGCOPY binary header: the magic bytes of "PGCOPY\n\xff\r\n\x00",
then a zero flags word and a zero extension length. -/
def pgcopyHeader : Bytes :=
  [80, 71, 67, 79, 80, 89, 10, 255, 13, 10, 0] ++ beI32 0 ++ beI32 0

/-- The code that follows the row loop of copy-in execute: append the
trailer to the pending buffer, send it as `CopyData` followed by `CopyDone`
and `Sync` — the source reaches this point both after a normal loop end and
after the `break 'l` of a column-count mismatch — then read the terminal
response and wait for ready. -/
def copyInFinish (c : Conn) (sent : List FrontendMessage) (buf : Bytes)
    (script : List BackendMessage) : OpOut Nat :=
  let buf := buf ++ beI16 (-1)
  let sent := sent ++ [.copyData buf, .copyDone, .sync]
  match readLoop c script with
  | (.ok (.commandComplete tag), c2, rest) =>
      match waitForReady c2 rest with
      | (.ok _, c3, rest2) => ⟨.ok (parseUpdateCount tag), c3, sent, rest2⟩
      | (.error e, c3, rest2) => ⟨.error e, c3, sent, rest2⟩
  | (.ok (.errorResponse fields), c2, rest) =>
      match waitForReady c2 rest with
      | (.ok _, c3, rest2) => ⟨.error (.dbError fields), c3, sent, rest2⟩
      | (.error e, c3, rest2) => ⟨.error e, c3, sent, rest2⟩
  | (.ok _, c2, rest) => ⟨.error .badResponse, markDesync c2, sent, rest⟩
  | (.error e, c2, rest) => ⟨.error e, c2, sent, rest⟩

/-- `PostgresCopyInStatement::execute`. Note that, unlike every other public
operation, it performs no `check_desync!`: it immediately writes
`Bind`/`Execute`/`Sync`, whatever the desynchronized flag says. -/
def copyInExecute (c : Conn) (stmt : CopyInStatement)
    (rows : List (List ToSqlParam)) (script : List BackendMessage) : OpOut Nat :=
  let sent0 : List FrontendMessage :=
    [.bind ("") stmt.name [] [] [], .execute ("") 0, .sync]
  match readLoop c script with
  | (.error e, c2, rest) => ⟨.error e, c2, sent0, rest⟩
  | (.ok .bindComplete, c2, rest) =>
      match readLoop c2 rest with
      | (.error e, c3, rest2) => ⟨.error e, c3, sent0, rest2⟩
      | (.ok (.copyInResponse _ _), c3, rest2) =>
          match copyRows stmt.columnTypes [] pgcopyHeader rows with
          | .failed e sentRows => ⟨.error e, c3, sent0 ++ sentRows, rest2⟩
          | .done sentRows buf =>
              let o := copyInFinish c3 [] buf rest2
              { o with sent := sent0 ++ sentRows ++ o.sent }
          | .aborted sentRows buf =>
              let o := copyInFinish c3 [] buf rest2
              { o with sent := sent0 ++ sentRows ++ o.sent }
      | (.ok _, c3, rest2) => ⟨.error .badResponse, markDesync c3, sent0, rest2⟩
  | (.ok (.errorResponse fields), c2, rest) =>
      match waitForReady c2 rest with
      | (.ok _, c3, rest2) => ⟨.error (.dbError fields), c3, sent0, rest2⟩
      | (.error e, c3, rest2) => ⟨.error e, c3, sent0, rest2⟩
  | (.ok _, c2, rest) => ⟨.error .badResponse, markDesync c2, sent0, rest⟩

/-- The option list built by `InnerPostgresConnection::connect`: the caller's
options arrive in `params.options` and the library pushes
`client_encoding`/`TimeZone`/`user` and, when provided, `database` onto the
end of that same vector before it becomes the startup message's parameter
list. -/
def startupOptions (options : List (String × String)) (user : String)
    (database : Option String) : List (String × String) :=
  let options := options ++ [(("client_encoding"), ("UTF8"))]
  let options := options ++ [(("TimeZone"), ("GMT"))]
  let options := options ++ [(("user"), user)]
  match database with
  | some database => options ++ [(("database"), database)]
  | none => options

/-- The database field computed by `IntoConnectParams for Url` from the
serialized URL path: a non-empty path drops its leading slash and is kept,
an empty path yields no database. -/
def urlDatabase (path : String) : Option String :=
  if !path.isEmpty then some (path.drop 1) else none

/-- `RowIndex for uint`: the out-of-bounds predicate of the source is
`*self > stmt.result_desc.len()` (strictly greater). -/
def uintIdx (i : Nat) (stmt : Statement) : Option Nat :=
  if i > stmt.resultDesc.length then none else some i

/-- `Iterator::position`, as used by `RowIndex for &str`: the index of the
first element satisfying the predicate. -/
def position (p : α → Bool) : List α → Option Nat
  | [] => none
  | x :: xs => if p x then some 0 else (position p xs).map (· + 1)

/-- `RowIndex for &str`: the first result column whose name is exactly the
given string. -/
def strIdx (name : String) (stmt : Statement) : Option Nat :=
  position (fun d => d.name == name) stmt.resultDesc

/-- The possible outcomes of `PostgresRow::get_opt` as far as indexing is
concerned: the `(type, cell)` pair handed to `FromSql::from_sql`, an error,
or a Rust panic from indexing past the end of a vector. -/
inductive GetOutcome where
  | ok (ty : PostgresType) (cell : Option Bytes)
  | err (e : PgError)
  | panicked
  deriving DecidableEq, Repr

/-- `PostgresRow::get_opt` after the `RowIndex::idx` resolution: a `None`
index is the invalid-column error; a resolved index is used to subscript
both `result_desc` and the row data, which panics when out of range. -/
def getOptIdx (stmt : Statement) (data : List (Option Bytes))
    (idx : Option Nat) : GetOutcome :=
  match idx with
  | none => .err .invalidColumn
  | some i =>
    match stmt.resultDesc[i]?, data[i]? with
    | some d, some cell => .ok d.ty cell
    | _, _ => .panicked

/-- The query issued by `tokio_postgres::Transaction::commit`: the depth
field is 0 for the outermost transaction. -/
def tokioCommitQuery (depth : Nat) : String :=
  if depth == 0 then "COMMIT" else "RELEASE sp" ++ toString depth

/-- The query issued by `tokio_postgres::Transaction::rollback` (and its
`Drop` implementation). -/
def tokioRollbackQuery (depth : Nat) : String :=
  if depth == 0 then "ROLLBACK" else "ROLLBACK TO sp" ++ toString depth

/-- The query issued by `tokio_postgres::Transaction::transaction`: the new
handle's depth is the parent's plus one and names the savepoint. -/
def tokioSavepointQuery (depth : Nat) : String :=
  "SAVEPOINT sp" ++ toString (depth + 1)

/-- The parsed severity values of `tokio_postgres::error::Severity`. -/
inductive Severity where
  | panic
  | fatal
  | error
  | warning
  | notice
  | debug
  | info
  | log
  deriving DecidableEq, Repr

/-- `Severity::from_str`. -/
def Severity.fromStr (s : String) : Option Severity :=
  if s == "PANIC" then some .panic
  else if s == "FATAL" then some .fatal
  else if s == "ERROR" then some .error
  else if s == "WARNING" then some .warning
  else if s == "NOTICE" then some .notice
  else if s == "DEBUG" then some .debug
  else if s == "INFO" then some .info
  else if s == "LOG" then some .log
  else none

/-- Decimal digit parsing over the characters of a field value. -/
def parseDigits : List Char → Nat → Option Nat
  | [], acc => some acc
  | c :: cs, acc =>
    if 48 ≤ c.toNat ∧ c.toNat ≤ 57 then parseDigits cs (acc * 10 + (c.toNat - 48))
    else none

/-- Rust's `str::parse::<u32>` on a field value: a non-empty digit string
within the 32-bit range. -/
def parseU32 (s : String) : Option Nat :=
  if s.data.isEmpty then none
  else
    match parseDigits s.data 0 with
    | some n => if n < 2 ^ 32 then some n else none
    | none => none

/-- An error position (`tokio_postgres::error::ErrorPosition`). -/
inductive ErrorPosition where
  | original (position : Nat)
  | internal (position : Nat) (q : String)
  deriving DecidableEq, Repr

/-- The local mutable state accumulated by the field loop of
`DbError::new`. -/
structure DbFieldsSt where
  severity : Option String := none
  parsedSeverity : Option Severity := none
  code : Option String := none
  message : Option String := none
  detail : Option String := none
  hint : Option String := none
  normalPosition : Option Nat := none
  internalPosition : Option Nat := none
  internalQuery : Option String := none
  whereField : Option String := none
  schema : Option String := none
  table : Option String := none
  column : Option String := none
  datatype : Option String := none
  constraintField : Option String := none
  file : Option String := none
  line : Option Nat := none
  routine : Option String := none
  deriving DecidableEq, Repr

/-- One iteration of the field loop of `DbError::new`. Field tags are the
bytes of the source's match: S=83 C=67 M=77 D=68 H=72 P=80 p=112 q=113 W=87
s=115 t=116 c=99 d=100 n=110 F=70 L=76 R=82 V=86; every other tag falls into
the silently-ignored arm. The error strings stand for the `io::Error` values
the source constructs. -/
def applyField (st : DbFieldsSt) (ty : Nat) (value : String) :
    Except String DbFieldsSt :=
  if ty == 83 then .ok { st with severity := some value }
  else if ty == 67 then .ok { st with code := some value }
  else if ty == 77 then .ok { st with message := some value }
  else if ty == 68 then .ok { st with detail := some value }
  else if ty == 72 then .ok { st with hint := some value }
  else if ty == 80 then
    match parseU32 value with
    | some n => .ok { st with normalPosition := some n }
    | none => .error ("P field did not contain an integer")
  else if ty == 112 then
    match parseU32 value with
    | some n => .ok { st with internalPosition := some n }
    | none => .error ("p field did not contain an integer")
  else if ty == 113 then .ok { st with internalQuery := some value }
  else if ty == 87 then .ok { st with whereField := some value }
  else if ty == 115 then .ok { st with schema := some value }
  else if ty == 116 then .ok { st with table := some value }
  else if ty == 99 then .ok { st with column := some value }
  else if ty == 100 then .ok { st with datatype := some value }
  else if ty == 110 then .ok { st with constraintField := some value }
  else if ty == 70 then .ok { st with file := some value }
  else if ty == 76 then
    match parseU32 value with
    | some n => .ok { st with line := some n }
    | none => .error ("L field did not contain an integer")
  else if ty == 82 then .ok { st with routine := some value }
  else if ty == 86 then
    match Severity.fromStr value with
    | some s => .ok { st with parsedSeverity := some s }
    | none => .error ("V field contained an invalid value")
  else .ok st

/-- The while-let loop of `DbError::new` over the error fields. -/
def foldFields (st : DbFieldsSt) : List (Nat × String) → Except String DbFieldsSt
  | [] => .ok st
  | (ty, value) :: rest =>
    match applyField st ty value with
    | .ok st2 => foldFields st2 rest
    | .error e => .error e

/-- The recognized field tags of `DbError::new` (everything else hits the
ignored arm). -/
def recognizedTag (ty : Nat) : Bool :=
  ty == 83 || ty == 67 || ty == 77 || ty == 68 || ty == 72 || ty == 80 ||
  ty == 112 || ty == 113 || ty == 87 || ty == 115 || ty == 116 || ty == 99 ||
  ty == 100 || ty == 110 || ty == 70 || ty == 76 || ty == 82 || ty == 86

/-- A decoded database error (`tokio_postgres::error::DbError`). The
SQLSTATE is kept as the raw code string (`SqlState::from_code` is total and
lives in the out-of-scope taxonomy module). -/
structure TokioDbError where
  severity : String
  parsedSeverity : Option Severity
  code : String
  message : String
  detail : Option String
  hint : Option String
  position : Option ErrorPosition
  whereField : Option String
  schema : Option String
  table : Option String
  column : Option String
  datatype : Option String
  constraintField : Option String
  file : Option String
  line : Option Nat
  routine : Option String
  deriving DecidableEq, Repr

/-- `DbError::new`: run the field loop, then assemble the struct; the `?`
operators require S, C and M, and a `p` field reached when no `P` field was
seen requires `q`. -/
def dbErrorNew (fields : List (Nat × String)) : Except String TokioDbError :=
  match foldFields {} fields with
  | .error e => .error e
  | .ok st =>
    match st.severity with
    | none => .error ("S field missing")
    | some sev =>
      match st.code with
      | none => .error ("C field missing")
      | some code =>
        match st.message with
        | none => .error ("M field missing")
        | some msg =>
          let position : Except String (Option ErrorPosition) :=
            match st.normalPosition with
            | some p => .ok (some (.original p))
            | none =>
              match st.internalPosition with
              | some p =>
                match st.internalQuery with
                | some qy => .ok (some (.internal p qy))
                | none => .error ("q field missing but p field present")
              | none => .ok none
          match position with
          | .error e => .error e
          | .ok pos =>
            .ok
              { severity := sev
                parsedSeverity := st.parsedSeverity
                code := code
                message := msg
                detail := st.detail
                hint := st.hint
                position := pos
                whereField := st.whereField
                schema := st.schema
                table := st.table
                column := st.column
                datatype := st.datatype
                constraintField := st.constraintField
                file := st.file
                line := st.line
                routine := st.routine }

/-- The two error kinds `Error::db` can produce. -/
inductive DbOrParse where
  | db
  | parseKind
  deriving DecidableEq, Repr

/-- `Error::db`: a successfully decoded `DbError` becomes a `Kind::Db`
error, a failed decode becomes `Kind::Parse`. -/
def errorDb (fields : List (Nat × String)) : DbOrParse :=
  match dbErrorNew fields with
  | .ok _ => .db
  | .error _ => .parseKind

/-- Whether a result is the success variant. -/
def exceptIsOk {ε α : Type} : Except ε α → Bool
  | .ok _ => true
  | .error _ => false

/-- A freshly connected, synchronized session (the canary is the source's
0xdeadbeef). -/
def connOk : Conn := ⟨false, false, 0, 0, 3735928559, []⟩

/-- A desynchronized session. -/
def connDesync : Conn := ⟨true, false, 0, 0, 3735928559, []⟩

/-- A session inside one transaction. -/
def connInTrans : Conn := ⟨false, false, 1, 0, 3735928559, []⟩

/-- A statement with one parameter and one result column named col. -/
def stmtOneCol : Statement := ⟨"s0", [23], [⟨"col", 25⟩], 0⟩

/-- A copy-in statement with a single column type. -/
def copyStmtOneCol : CopyInStatement := ⟨"s1", [23]⟩

/-- A backend script for a copy-in exchange that the backend aborts with an
error after the client's copy stream: BindComplete, CopyInResponse, then
ErrorResponse and ReadyForQuery. -/
def copyAbortScript : List BackendMessage :=
  [.bindComplete, .copyInResponse 0 [], .errorResponse [], .readyForQuery 73]

theorem beI32_ofNat_bytes (n : Nat) (h : n < 2 ^ 32) :
    beI32 (Int.ofNat n) =
      [n / 2 ^ 24 % 256, n / 2 ^ 16 % 256, n / 2 ^ 8 % 256, n % 256] := by
  simp only [beI32, Int.ofNat_eq_natCast]
  have h1 : (((n : Int)) % (2 ^ 32 : Int)).toNat = n := by omega
  rw [h1]

theorem beI32_roundtrip (n : Nat) (h : n < 2 ^ 32) :
    beBytesToNat (beI32 (Int.ofNat n)) = n ∧ (beI32 (Int.ofNat n)).length = 4 := by
  rw [beI32_ofNat_bytes n h]
  refine ⟨?_, rfl⟩
  simp only [beBytesToNat, List.foldl]
  omega

/-- C6: the encoder emits a type byte for every frontend message except the
startup, SSL-request and cancel-request messages, then a big-endian i32
length equal to the payload byte count plus 4 (the length covers itself but
not the type byte), then the payload. -/
theorem frontend_frame_layout (m : FrontendMessage)
    (h : (frontendBody m).2.length + 4 < 2 ^ 31) :
    writeMessage m =
      (match (frontendBody m).1 with
        | some ident => [ident]
        | none => []) ++ beI32 (Int.ofNat ((frontendBody m).2.length + 4))
        ++ (frontendBody m).2
    ∧ ((frontendBody m).1 = none ↔ noTypeByteSpec m = true)
    ∧ (beI32 (Int.ofNat ((frontendBody m).2.length + 4))).length = 4
    ∧ beBytesToNat (beI32 (Int.ofNat ((frontendBody m).2.length + 4)))
        = (frontendBody m).2.length + 4 := by
  refine ⟨rfl, ?_, ?_, ?_⟩
  · cases m <;> simp [frontendBody, noTypeByteSpec]
  · exact (beI32_roundtrip _ (by omega)).2
  · exact (beI32_roundtrip _ (by omega)).1

/-- Witness for C6 at the Sync message, which frames as type byte 83 and the
minimal length 4. -/
theorem frontend_frame_layout_witness :
    writeMessage FrontendMessage.sync = [83, 0, 0, 0, 4]
    ∧ ((frontendBody FrontendMessage.sync).1 = none
        ↔ noTypeByteSpec FrontendMessage.sync = true) := by
  have h := frontend_frame_layout FrontendMessage.sync (by decide)
  exact ⟨by decide, h.2.1⟩

/-- C7: the integer row index keeps the source's loose out-of-bounds
predicate: for a statement with one result column, index 1 (equal to the
column count) resolves to Some 1 and get_opt then panics indexing past the
end of the descriptions, instead of yielding None and an InvalidColumn error
as the specification requires; index 2 is rejected, index 0 works. -/
theorem uintIdx_loose_bound :
    uintIdx 1 stmtOneCol = some 1
    ∧ getOptIdx stmtOneCol [some []] (uintIdx 1 stmtOneCol) = .panicked
    ∧ uintIdx 2 stmtOneCol = none
    ∧ getOptIdx stmtOneCol [some []] (uintIdx 0 stmtOneCol) = .ok 25 (some []) := by
  decide

/-- C8: the database field computed from the URL path: the code maps the
bare-slash path to Some of the empty string rather than the specified None;
the empty path and a proper name behave as specified. -/
theorem urlDatabase_slash :
    urlDatabase ("/") = some ("") ∧ urlDatabase ("") = none
    ∧ urlDatabase ("/name") = some ("name") := by
  decide

/-- C5 counterexample: with one caller-supplied option, the startup option
list has the caller option at index 0 and the library-added options after
it, so the caller-supplied options do not appear later in the list than the
library-added ones. -/
theorem startup_options_counterexample :
    startupOptions [(("a"), ("b"))] ("u") none =
      [(("a"), ("b")), (("client_encoding"), ("UTF8")), (("TimeZone"), ("GMT")),
        (("user"), ("u"))]
    ∧ (startupOptions [(("a"), ("b"))] ("u") none)[0]? = some (("a"), ("b"))
    ∧ (startupOptions [(("a"), ("b"))] ("u") none)[1]? =
        some (("client_encoding"), ("UTF8")) := by
  decide

/-- C5 (amended): the startup option list always contains
client_encoding=UTF8, TimeZone=GMT and user; the database pair is present
exactly when a database was provided (or the caller supplied such a pair
itself); and the caller-supplied options come first, with the library-added
options appended after them. -/
theorem startup_options_spec (opts : List (String × String)) (user : String)
    (db : Option String) :
    (("client_encoding"), ("UTF8")) ∈ startupOptions opts user db
    ∧ (("TimeZone"), ("GMT")) ∈ startupOptions opts user db
    ∧ (("user"), user) ∈ startupOptions opts user db
    ∧ (∀ d, (("database"), d) ∈ startupOptions opts user db ↔
        db = some d ∨ (("database"), d) ∈ opts)
    ∧ startupOptions opts user db =
        opts ++ [(("client_encoding"), ("UTF8")), (("TimeZone"), ("GMT")),
          (("user"), user)]
          ++ (match db with
              | some d => [(("database"), d)]
              | none => []) := by
  refine ⟨?_, ?_, ?_, ?_, ?_⟩ <;>
    cases db <;>
      (simp [startupOptions, List.mem_append, Prod.mk.injEq]; try tauto)

/-- Witness for the amended C5 at a concrete option list with a provided
database. -/
theorem startup_options_spec_witness :
    (("database"), ("db")) ∈ startupOptions [(("a"), ("b"))] ("u") (some ("db")) := by
  have h := startup_options_spec [(("a"), ("b"))] ("u") (some ("db"))
  exact (h.2.2.2.1 ("db")).mpr (Or.inl rfl)

theorem quickQueryLoop_sent_prefix :
    ∀ (script : List BackendMessage) (c : Conn) (sent : List FrontendMessage)
      (acc : List (List (Option Bytes))),
      ∃ t, (quickQueryLoop c sent acc script).sent = sent ++ t := by
  intro script
  induction script with
  | nil => intro c sent acc; exact ⟨[], by simp [quickQueryLoop]⟩
  | cons m rest ih =>
    intro c sent acc
    cases m
    case readyForQuery s => exact ⟨[], by simp [quickQueryLoop]⟩
    case copyInResponse f cf =>
      obtain ⟨t, ht⟩ :=
        ih c (sent ++ [.copyFail ("COPY queries cannot be directly executed"), .sync]) acc
      exact ⟨[.copyFail ("COPY queries cannot be directly executed"), .sync] ++ t, by
        simp only [quickQueryLoop]
        rw [ht]
        simp⟩
    case errorResponse fields =>
      refine ⟨[], ?_⟩
      simp only [quickQueryLoop]
      rcases hw : waitForReady c rest with ⟨r, c2, rest2⟩
      cases r <;> simp
    all_goals (simp only [quickQueryLoop]; exact ih _ _ _)

theorem quickQuery_sent_head (c : Conn) (q : String)
    (script : List BackendMessage) (h : c.desynchronized = false) :
    (quickQuery c q script).sent.head? = some (.query q) := by
  simp only [quickQuery, h]
  obtain ⟨t, ht⟩ := quickQueryLoop_sent_prefix script c [.query q] []
  simp only [Bool.false_eq_true, if_false, ht]
  rfl

/-- C2 counterexample: a nested transaction begun from depth 1 issues
exactly the query SAVEPOINT sp — the savepoint name does not carry the new
depth, so it is not the SAVEPOINT sp2 required by the claim; similarly a
nested finish issues RELEASE sp, not RELEASE sp2. -/
theorem savepoint_name_counterexample :
    (transTransaction connInTrans 1 [.readyForQuery 73]).sent =
      [.query ("SAVEPOINT sp")]
    ∧ ("SAVEPOINT sp" : String) ≠ "SAVEPOINT sp2"
    ∧ finishQuery true 2 = "RELEASE sp"
    ∧ ("RELEASE sp" : String) ≠ "RELEASE sp2" := by
  decide

/-- C2 (amended): the blocking implementation issues BEGIN only from depth
0, COMMIT/ROLLBACK only for the outermost handle, and bare SAVEPOINT sp /
RELEASE sp / ROLLBACK TO sp (no depth suffix) for nested handles; the
asynchronous implementation, whose outermost transaction has depth 0, names
its savepoints by depth: beginning from depth d issues SAVEPOINT sp{d+1},
and a nested handle at depth d ≥ 1 finishes with RELEASE sp{d} or ROLLBACK
TO sp{d}. -/
theorem transaction_queries (c : Conn) (d : Nat) (commit : Bool)
    (script : List BackendMessage) :
    (c.desynchronized = false → c.transDepth = 0 →
      (connTransaction c script).sent.head? = some (.query ("BEGIN")))
    ∧ (c.desynchronized = false → c.transDepth = d →
      (transTransaction c d script).sent.head? = some (.query ("SAVEPOINT sp")))
    ∧ (c.desynchronized = false →
      (transFinishInner c commit d script).sent.head? =
        some (.query (finishQuery commit d)))
    ∧ finishQuery true 1 = "COMMIT" ∧ finishQuery false 1 = "ROLLBACK"
    ∧ (d ≠ 1 → finishQuery true d = "RELEASE sp"
        ∧ finishQuery false d = "ROLLBACK TO sp")
    ∧ (1 ≤ d → tokioCommitQuery d = "RELEASE sp" ++ toString d
        ∧ tokioRollbackQuery d = "ROLLBACK TO sp" ++ toString d)
    ∧ tokioSavepointQuery d = "SAVEPOINT sp" ++ toString (d + 1)
    ∧ tokioCommitQuery 0 = "COMMIT" ∧ tokioRollbackQuery 0 = "ROLLBACK" := by
  refine ⟨?_, ?_, ?_, rfl, rfl, ?_, ?_, rfl, rfl, rfl⟩
  · intro h1 h2
    have hq := quickQuery_sent_head c ("BEGIN") script h1
    simp only [connTransaction, h1, h2]
    rcases hqq : quickQuery c ("BEGIN") script with ⟨r, c2, s2, sc2⟩
    rw [hqq] at hq
    cases r <;> simpa using hq
  · intro h1 h2
    have hq := quickQuery_sent_head c ("SAVEPOINT sp") script h1
    simp only [transTransaction, h1, h2]
    rcases hqq : quickQuery c ("SAVEPOINT sp") script with ⟨r, c2, s2, sc2⟩
    rw [hqq] at hq
    cases r <;> simpa using hq
  · intro h1
    simp only [transFinishInner]
    have hq := quickQuery_sent_head { c with transDepth := c.transDepth - 1 }
      (finishQuery commit d) script h1
    rcases hqq : quickQuery { c with transDepth := c.transDepth - 1 }
      (finishQuery commit d) script with ⟨r, c2, s2, sc2⟩
    rw [hqq] at hq
    simpa using hq
  · intro hd
    constructor <;> simp [finishQuery, hd]
  · intro hd
    have h0 : (d == 0) = false := by
      simp only [beq_eq_false_iff_ne]
      omega
    constructor <;> simp [tokioCommitQuery, tokioRollbackQuery, h0]

/-- Witness for the amended C2: the blocking nested begin at depth 1 and the
async commit at depth 1. -/
theorem transaction_queries_witness :
    (transTransaction connInTrans 1 [.readyForQuery 73]).sent.head? =
      some (.query ("SAVEPOINT sp"))
    ∧ tokioCommitQuery 1 = "RELEASE sp1" := by
  have h := transaction_queries connInTrans 1 true [.readyForQuery 73]
  refine ⟨h.2.1 rfl rfl, ?_⟩
  have h2 := (h.2.2.2.2.2.2.1 (by decide)).1
  exact h2.trans (by decide)

/-- C1: at a desynchronized session, quick_query, batch_execute, beginning a
transaction (outer or nested), statement execute and finish all fail
immediately, writing nothing and consuming nothing — but copy-in execute,
which lacks the desynchronization check, still writes its Bind/Execute/Sync
frames to the transport (the failing input of the claim). -/
theorem desync_operation_behaviour :
    quickQuery connDesync ("SELECT 1") [] =
      ⟨.error .streamDesynchronized, connDesync, [], []⟩
    ∧ (batchExecute connDesync ("SELECT 1") []).res = .error .streamDesynchronized
    ∧ (batchExecute connDesync ("SELECT 1") []).sent = []
    ∧ connTransaction connDesync [] = ⟨.error .streamDesynchronized, connDesync, [], []⟩
    ∧ transTransaction connDesync 1 [] =
        ⟨.error .streamDesynchronized, connDesync, [], []⟩
    ∧ stmtExecute connDesync stmtOneCol [] [] =
        ⟨.error .streamDesynchronized, connDesync, [], []⟩
    ∧ (connFinish connDesync []).res = .error .streamDesynchronized
    ∧ (connFinish connDesync []).sent = []
    ∧ (copyInExecute connDesync copyStmtOneCol [] []).sent =
        [.bind ("") ("s1") [] [] [], .execute ("") 0, .sync] := by
  decide

/-- C3: executing a prepared statement with a mismatched parameter count
fails with WrongParamCount carrying the expected and the actual counts,
before anything is written to or read from the transport, and the session
state is unchanged. -/
theorem wrong_param_count (c : Conn) (stmt : Statement) (portal : String)
    (rowLimit : Int) (params : List ToSqlParam) (script : List BackendMessage)
    (h : params.length ≠ stmt.paramTypes.length) :
    stmtInnerExecute c stmt portal rowLimit params script =
      ⟨.error (.wrongParamCount stmt.paramTypes.length params.length), c, [], script⟩
    ∧ (c.desynchronized = false →
        stmtExecute c stmt params script =
          ⟨.error (.wrongParamCount stmt.paramTypes.length params.length), c, [],
            script⟩) := by
  have h1 : (stmt.paramTypes.length != params.length) = true := by
    simp only [bne_iff_ne]
    omega
  constructor
  · simp [stmtInnerExecute, h1]
  · intro h2
    simp [stmtExecute, h2, stmtInnerExecute, h1]

/-- Witness for C3: a statement expecting one parameter, executed with an
empty parameter list on a synchronized session. -/
theorem wrong_param_count_witness :
    stmtExecute connOk stmtOneCol [] [] =
      ⟨.error (.wrongParamCount 1 0), connOk, [], []⟩ := by
  have h := wrong_param_count connOk stmtOneCol ("") 0 [] [] (by decide)
  exact h.2 rfl

theorem copyInFinish_sent (c : Conn) (sent : List FrontendMessage) (buf : Bytes)
    (script : List BackendMessage) :
    (copyInFinish c sent buf script).sent =
      sent ++ [.copyData (buf ++ beI16 (-1)), .copyDone, .sync] := by
  simp only [copyInFinish]
  rcases hr : readLoop c script with ⟨r, c2, rest⟩
  cases r with
  | error e => simp
  | ok m =>
    cases m <;> simp <;>
      (rcases hw : waitForReady c2 rest with ⟨w, c3, rest2⟩; cases w <;> simp)

theorem copyRows_aborted_ends (types : List PostgresType) :
    ∀ (rows : List (List ToSqlParam)) (sent : List FrontendMessage) (buf : Bytes)
      (s : List FrontendMessage) (b : Bytes),
      copyRows types sent buf rows = .aborted s b →
      s.getLast? = some (.copyFail ("Invalid column count")) := by
  intro rows
  induction rows with
  | nil =>
    intro sent buf s b h
    simp [copyRows] at h
  | cons row more ih =>
    intro sent buf s b h
    simp only [copyRows] at h
    cases he : encodeRow row types (buf ++ beI16 (Int.ofNat types.length)) with
    | mismatch buf2 =>
      rw [he] at h
      obtain ⟨hs, _⟩ := CopyLoopOut.aborted.inj h
      rw [← hs]
      simp
    | err e =>
      rw [he] at h
      exact absurd h (by simp)
    | ok buf2 =>
      rw [he] at h
      exact ih _ _ _ _ h

/-- C4 (amended): when a copy-in row has the wrong column count, the client
writes CopyFail("Invalid column count") and stops consuming rows — but then
falls through to the post-loop code: the pending buffer with the binary
trailer appended is still sent as a final CopyData, followed by CopyDone and
Sync, rather than aborting right after the CopyFail. -/
theorem copy_in_mismatch (c : Conn) (stmt : CopyInStatement)
    (rows : List (List ToSqlParam)) (script : List BackendMessage)
    (c2 c3 : Conn) (rest rest2 : List BackendMessage) (f : Nat) (cf : List Nat)
    (sentRows : List FrontendMessage) (buf : Bytes)
    (h1 : readLoop c script = (.ok .bindComplete, c2, rest))
    (h2 : readLoop c2 rest = (.ok (.copyInResponse f cf), c3, rest2))
    (h3 : copyRows stmt.columnTypes [] pgcopyHeader rows = .aborted sentRows buf) :
    (copyInExecute c stmt rows script).sent =
      [.bind ("") stmt.name [] [] [], .execute ("") 0, .sync] ++ sentRows
        ++ [.copyData (buf ++ beI16 (-1)), .copyDone, .sync]
    ∧ sentRows.getLast? = some (.copyFail ("Invalid column count")) := by
  constructor
  · simp only [copyInExecute, h1, h2, h3]
    rw [copyInFinish_sent]
    simp
  · exact copyRows_aborted_ends stmt.columnTypes rows [] pgcopyHeader sentRows buf h3

/-- Witness for the amended C4: one column, one row with zero values. -/
theorem copy_in_mismatch_witness :
    (copyInExecute connOk copyStmtOneCol [[]] copyAbortScript).sent =
      [.bind ("") ("s1") [] [] [], .execute ("") 0, .sync,
        .copyFail ("Invalid column count"),
        .copyData (pgcopyHeader ++ beI16 1 ++ beI16 (-1)), .copyDone, .sync] := by
  have h := copy_in_mismatch connOk copyStmtOneCol [[]] copyAbortScript
    connOk connOk [.copyInResponse 0 [], .errorResponse [], .readyForQuery 73]
    [.errorResponse [], .readyForQuery 73] 0 []
    [.copyFail ("Invalid column count")] (pgcopyHeader ++ beI16 1)
    (by decide) (by decide) (by decide)
  simpa using h.1

/-- C4 counterexample: at a concrete mismatched row the trace shows the
CopyFail is followed by a CopyData carrying the trailer, then CopyDone and
Sync, contradicting the claimed CopyFail-then-Sync abort with no trailer and
no CopyDone. -/
theorem copy_in_mismatch_counterexample :
    FrontendMessage.copyDone ∈ (copyInExecute connOk copyStmtOneCol [[]] copyAbortScript).sent
    ∧ FrontendMessage.copyData (pgcopyHeader ++ beI16 1 ++ beI16 (-1)) ∈
        (copyInExecute connOk copyStmtOneCol [[]] copyAbortScript).sent
    ∧ (copyInExecute connOk copyStmtOneCol [[]] copyAbortScript).sent[3]? =
        some (.copyFail ("Invalid column count"))
    ∧ (copyInExecute connOk copyStmtOneCol [[]] copyAbortScript).sent[4]? =
        some (.copyData (pgcopyHeader ++ beI16 1 ++ beI16 (-1))) := by
  decide

theorem applyField_ok_effects (st : DbFieldsSt) (ty : Nat) (v : String)
    (st2 : DbFieldsSt) (h : applyField st ty v = .ok st2) :
    ((ty == 83) = false → st2.severity = st.severity)
    ∧ ((ty == 67) = false → st2.code = st.code)
    ∧ ((ty == 77) = false → st2.message = st.message)
    ∧ ((ty == 80) = false → st2.normalPosition = st.normalPosition)
    ∧ ((ty == 113) = false → st2.internalQuery = st.internalQuery)
    ∧ (st.internalPosition.isSome = true → st2.internalPosition.isSome = true)
    ∧ ((ty == 112) = true → st2.internalPosition.isSome = true) := by
  unfold applyField at h
  by_cases h83 : (ty == 83) = true
  · rw [if_pos h83] at h
    obtain rfl := (Except.ok.inj h).symm
    refine ⟨fun hx => ?_, fun hx => ?_, fun hx => ?_, fun hx => ?_, fun hx => ?_,
      fun hx => ?_, fun hx => ?_⟩ <;>
      first
        | rfl
        | exact hx
        | (rw [h83] at hx; exact Bool.noConfusion hx)
        | (simp only [beq_iff_eq] at hx h83; omega)
  rw [if_neg h83] at h
  by_cases h67 : (ty == 67) = true
  · rw [if_pos h67] at h
    obtain rfl := (Except.ok.inj h).symm
    refine ⟨fun hx => ?_, fun hx => ?_, fun hx => ?_, fun hx => ?_, fun hx => ?_,
      fun hx => ?_, fun hx => ?_⟩ <;>
      first
        | rfl
        | exact hx
        | (rw [h67] at hx; exact Bool.noConfusion hx)
        | (simp only [beq_iff_eq] at hx h67; omega)
  rw [if_neg h67] at h
  by_cases h77 : (ty == 77) = true
  · rw [if_pos h77] at h
    obtain rfl := (Except.ok.inj h).symm
    refine ⟨fun hx => ?_, fun hx => ?_, fun hx => ?_, fun hx => ?_, fun hx => ?_,
      fun hx => ?_, fun hx => ?_⟩ <;>
      first
        | rfl
        | exact hx
        | (rw [h77] at hx; exact Bool.noConfusion hx)
        | (simp only [beq_iff_eq] at hx h77; omega)
  rw [if_neg h77] at h
  by_cases h68 : (ty == 68) = true
  · rw [if_pos h68] at h
    obtain rfl := (Except.ok.inj h).symm
    refine ⟨fun hx => ?_, fun hx => ?_, fun hx => ?_, fun hx => ?_, fun hx => ?_,
      fun hx => ?_, fun hx => ?_⟩ <;>
      first
        | rfl
        | exact hx
        | (rw [h68] at hx; exact Bool.noConfusion hx)
        | (simp only [beq_iff_eq] at hx h68; omega)
  rw [if_neg h68] at h
  by_cases h72 : (ty == 72) = true
  · rw [if_pos h72] at h
    obtain rfl := (Except.ok.inj h).symm
    refine ⟨fun hx => ?_, fun hx => ?_, fun hx => ?_, fun hx => ?_, fun hx => ?_,
      fun hx => ?_, fun hx => ?_⟩ <;>
      first
        | rfl
        | exact hx
        | (rw [h72] at hx; exact Bool.noConfusion hx)
        | (simp only [beq_iff_eq] at hx h72; omega)
  rw [if_neg h72] at h
  by_cases h80 : (ty == 80) = true
  · rw [if_pos h80] at h
    cases hp : parseU32 v with
    | none =>
      rw [hp] at h
      exact absurd h (by simp)
    | some n =>
      rw [hp] at h
      obtain rfl := (Except.ok.inj h).symm
      refine ⟨fun hx => ?_, fun hx => ?_, fun hx => ?_, fun hx => ?_, fun hx => ?_,
        fun hx => ?_, fun hx => ?_⟩ <;>
        first
          | rfl
          | exact hx
          | (rw [h80] at hx; exact Bool.noConfusion hx)
          | (simp only [beq_iff_eq] at hx h80; omega)
  rw [if_neg h80] at h
  by_cases h112 : (ty == 112) = true
  · rw [if_pos h112] at h
    cases hp : parseU32 v with
    | none =>
      rw [hp] at h
      exact absurd h (by simp)
    | some n =>
      rw [hp] at h
      obtain rfl := (Except.ok.inj h).symm
      refine ⟨fun hx => ?_, fun hx => ?_, fun hx => ?_, fun hx => ?_, fun hx => ?_,
        fun hx => ?_, fun hx => ?_⟩ <;>
        first
          | rfl
          | exact hx
          | (rw [h112] at hx; exact Bool.noConfusion hx)
          | (simp only [beq_iff_eq] at hx h112; omega)
  rw [if_neg h112] at h
  by_cases h113 : (ty == 113) = true
  · rw [if_pos h113] at h
    obtain rfl := (Except.ok.inj h).symm
    refine ⟨fun hx => ?_, fun hx => ?_, fun hx => ?_, fun hx => ?_, fun hx => ?_,
      fun hx => ?_, fun hx => ?_⟩ <;>
      first
        | rfl
        | exact hx
        | (rw [h113] at hx; exact Bool.noConfusion hx)
        | (simp only [beq_iff_eq] at hx h113; omega)
  rw [if_neg h113] at h
  by_cases h87 : (ty == 87) = true
  · rw [if_pos h87] at h
    obtain rfl := (Except.ok.inj h).symm
    refine ⟨fun hx => ?_, fun hx => ?_, fun hx => ?_, fun hx => ?_, fun hx => ?_,
      fun hx => ?_, fun hx => ?_⟩ <;>
      first
        | rfl
        | exact hx
        | (rw [h87] at hx; exact Bool.noConfusion hx)
        | (simp only [beq_iff_eq] at hx h87; omega)
  rw [if_neg h87] at h
  by_cases h115 : (ty == 115) = true
  · rw [if_pos h115] at h
    obtain rfl := (Except.ok.inj h).symm
    refine ⟨fun hx => ?_, fun hx => ?_, fun hx => ?_, fun hx => ?_, fun hx => ?_,
      fun hx => ?_, fun hx => ?_⟩ <;>
      first
        | rfl
        | exact hx
        | (rw [h115] at hx; exact Bool.noConfusion hx)
        | (simp only [beq_iff_eq] at hx h115; omega)
  rw [if_neg h115] at h
  by_cases h116 : (ty == 116) = true
  · rw [if_pos h116] at h
    obtain rfl := (Except.ok.inj h).symm
    refine ⟨fun hx => ?_, fun hx => ?_, fun hx => ?_, fun hx => ?_, fun hx => ?_,
      fun hx => ?_, fun hx => ?_⟩ <;>
      first
        | rfl
        | exact hx
        | (rw [h116] at hx; exact Bool.noConfusion hx)
        | (simp only [beq_iff_eq] at hx h116; omega)
  rw [if_neg h116] at h
  by_cases h99 : (ty == 99) = true
  · rw [if_pos h99] at h
    obtain rfl := (Except.ok.inj h).symm
    refine ⟨fun hx => ?_, fun hx => ?_, fun hx => ?_, fun hx => ?_, fun hx => ?_,
      fun hx => ?_, fun hx => ?_⟩ <;>
      first
        | rfl
        | exact hx
        | (rw [h99] at hx; exact Bool.noConfusion hx)
        | (simp only [beq_iff_eq] at hx h99; omega)
  rw [if_neg h99] at h
  by_cases h100 : (ty == 100) = true
  · rw [if_pos h100] at h
    obtain rfl := (Except.ok.inj h).symm
    refine ⟨fun hx => ?_, fun hx => ?_, fun hx => ?_, fun hx => ?_, fun hx => ?_,
      fun hx => ?_, fun hx => ?_⟩ <;>
      first
        | rfl
        | exact hx
        | (rw [h100] at hx; exact Bool.noConfusion hx)
        | (simp only [beq_iff_eq] at hx h100; omega)
  rw [if_neg h100] at h
  by_cases h110 : (ty == 110) = true
  · rw [if_pos h110] at h
    obtain rfl := (Except.ok.inj h).symm
    refine ⟨fun hx => ?_, fun hx => ?_, fun hx => ?_, fun hx => ?_, fun hx => ?_,
      fun hx => ?_, fun hx => ?_⟩ <;>
      first
        | rfl
        | exact hx
        | (rw [h110] at hx; exact Bool.noConfusion hx)
        | (simp only [beq_iff_eq] at hx h110; omega)
  rw [if_neg h110] at h
  by_cases h70 : (ty == 70) = true
  · rw [if_pos h70] at h
    obtain rfl := (Except.ok.inj h).symm
    refine ⟨fun hx => ?_, fun hx => ?_, fun hx => ?_, fun hx => ?_, fun hx => ?_,
      fun hx => ?_, fun hx => ?_⟩ <;>
      first
        | rfl
        | exact hx
        | (rw [h70] at hx; exact Bool.noConfusion hx)
        | (simp only [beq_iff_eq] at hx h70; omega)
  rw [if_neg h70] at h
  by_cases h76 : (ty == 76) = true
  · rw [if_pos h76] at h
    cases hp : parseU32 v with
    | none =>
      rw [hp] at h
      exact absurd h (by simp)
    | some n =>
      rw [hp] at h
      obtain rfl := (Except.ok.inj h).symm
      refine ⟨fun hx => ?_, fun hx => ?_, fun hx => ?_, fun hx => ?_, fun hx => ?_,
        fun hx => ?_, fun hx => ?_⟩ <;>
        first
          | rfl
          | exact hx
          | (rw [h76] at hx; exact Bool.noConfusion hx)
          | (simp only [beq_iff_eq] at hx h76; omega)
  rw [if_neg h76] at h
  by_cases h82 : (ty == 82) = true
  · rw [if_pos h82] at h
    obtain rfl := (Except.ok.inj h).symm
    refine ⟨fun hx => ?_, fun hx => ?_, fun hx => ?_, fun hx => ?_, fun hx => ?_,
      fun hx => ?_, fun hx => ?_⟩ <;>
      first
        | rfl
        | exact hx
        | (rw [h82] at hx; exact Bool.noConfusion hx)
        | (simp only [beq_iff_eq] at hx h82; omega)
  rw [if_neg h82] at h
  by_cases h86 : (ty == 86) = true
  · rw [if_pos h86] at h
    cases hp : Severity.fromStr v with
    | none =>
      rw [hp] at h
      exact absurd h (by simp)
    | some sv =>
      rw [hp] at h
      obtain rfl := (Except.ok.inj h).symm
      refine ⟨fun hx => ?_, fun hx => ?_, fun hx => ?_, fun hx => ?_, fun hx => ?_,
        fun hx => ?_, fun hx => ?_⟩ <;>
        first
          | rfl
          | exact hx
          | (rw [h86] at hx; exact Bool.noConfusion hx)
          | (simp only [beq_iff_eq] at hx h86; omega)
  rw [if_neg h86] at h
  obtain rfl := (Except.ok.inj h).symm
  refine ⟨fun hx => ?_, fun hx => ?_, fun hx => ?_, fun hx => ?_, fun hx => ?_,
    fun hx => ?_, fun hx => ?_⟩ <;>
    first
      | rfl
      | exact hx
      | exact absurd hx h112

theorem foldFields_effects :
    ∀ (l : List (Nat × String)) (st st2 : DbFieldsSt),
      foldFields st l = .ok st2 →
      (l.all (fun f => f.1 != 83) = true → st2.severity = st.severity)
      ∧ (l.all (fun f => f.1 != 67) = true → st2.code = st.code)
      ∧ (l.all (fun f => f.1 != 77) = true → st2.message = st.message)
      ∧ (l.all (fun f => f.1 != 80) = true → st2.normalPosition = st.normalPosition)
      ∧ (l.all (fun f => f.1 != 113) = true → st2.internalQuery = st.internalQuery)
      ∧ (st.internalPosition.isSome = true → st2.internalPosition.isSome = true)
      ∧ (l.any (fun f => f.1 == 112) = true → st2.internalPosition.isSome = true) := by
  intro l
  induction l with
  | nil =>
    intro st st2 h
    simp only [foldFields] at h
    obtain rfl := Except.ok.inj h
    simp
  | cons f rest ih =>
    intro st st2 h
    obtain ⟨ty, v⟩ := f
    simp only [foldFields] at h
    cases ha : applyField st ty v with
    | error e =>
      rw [ha] at h
      exact absurd h (by simp)
    | ok st1 =>
      rw [ha] at h
      have hae := applyField_ok_effects st ty v st1 ha
      have hr := ih st1 st2 h
      simp only [List.all_cons, List.any_cons, Bool.and_eq_true, Bool.or_eq_true,
        bne_iff_ne, ne_eq, beq_iff_eq]
      refine ⟨?_, ?_, ?_, ?_, ?_, ?_, ?_⟩
      · intro hall
        have h83 : (ty == 83) = false := by simp [hall.1]
        have := hr.1 (by simpa [List.all_eq_true, bne_iff_ne] using hall.2)
        rw [this, hae.1 h83]
      · intro hall
        have h67 : (ty == 67) = false := by simp [hall.1]
        have := hr.2.1 (by simpa [List.all_eq_true, bne_iff_ne] using hall.2)
        rw [this, hae.2.1 h67]
      · intro hall
        have h77 : (ty == 77) = false := by simp [hall.1]
        have := hr.2.2.1 (by simpa [List.all_eq_true, bne_iff_ne] using hall.2)
        rw [this, hae.2.2.1 h77]
      · intro hall
        have h80 : (ty == 80) = false := by simp [hall.1]
        have := hr.2.2.2.1 (by simpa [List.all_eq_true, bne_iff_ne] using hall.2)
        rw [this, hae.2.2.2.1 h80]
      · intro hall
        have h113 : (ty == 113) = false := by simp [hall.1]
        have := hr.2.2.2.2.1 (by simpa [List.all_eq_true, bne_iff_ne] using hall.2)
        rw [this, hae.2.2.2.2.1 h113]
      · intro hsome
        exact hr.2.2.2.2.2.1 (hae.2.2.2.2.2.1 hsome)
      · intro hany
        rcases hany with h112 | hany
        · exact hr.2.2.2.2.2.1 (hae.2.2.2.2.2.2 (by simp [h112]))
        · exact hr.2.2.2.2.2.2 (by simpa [List.any_eq_true] using hany)

theorem applyField_unrecognized (st : DbFieldsSt) (ty : Nat) (v : String)
    (h : recognizedTag ty = false) : applyField st ty v = .ok st := by
  simp only [recognizedTag, Bool.or_eq_false_iff, beq_eq_false_iff_ne, ne_eq] at h
  obtain ⟨⟨⟨⟨⟨⟨⟨⟨⟨⟨⟨⟨⟨⟨⟨⟨⟨h83, h67⟩, h77⟩, h68⟩, h72⟩, h80⟩, h112⟩, h113⟩, h87⟩, h115⟩, h116⟩, h99⟩, h100⟩, h110⟩, h70⟩, h76⟩, h82⟩, h86⟩ := h
  unfold applyField
  rw [if_neg (by simp only [beq_iff_eq]; exact h83),
    if_neg (by simp only [beq_iff_eq]; exact h67),
    if_neg (by simp only [beq_iff_eq]; exact h77),
    if_neg (by simp only [beq_iff_eq]; exact h68),
    if_neg (by simp only [beq_iff_eq]; exact h72),
    if_neg (by simp only [beq_iff_eq]; exact h80),
    if_neg (by simp only [beq_iff_eq]; exact h112),
    if_neg (by simp only [beq_iff_eq]; exact h113),
    if_neg (by simp only [beq_iff_eq]; exact h87),
    if_neg (by simp only [beq_iff_eq]; exact h115),
    if_neg (by simp only [beq_iff_eq]; exact h116),
    if_neg (by simp only [beq_iff_eq]; exact h99),
    if_neg (by simp only [beq_iff_eq]; exact h100),
    if_neg (by simp only [beq_iff_eq]; exact h110),
    if_neg (by simp only [beq_iff_eq]; exact h70),
    if_neg (by simp only [beq_iff_eq]; exact h76),
    if_neg (by simp only [beq_iff_eq]; exact h82),
    if_neg (by simp only [beq_iff_eq]; exact h86)]

theorem foldFields_filter :
    ∀ (l : List (Nat × String)) (st : DbFieldsSt),
      foldFields st (l.filter (fun f => recognizedTag f.1)) = foldFields st l := by
  intro l
  induction l with
  | nil => intro st; rfl
  | cons f rest ih =>
    intro st
    obtain ⟨ty, v⟩ := f
    by_cases hrec : recognizedTag ty = true
    · rw [List.filter_cons_of_pos (by simpa using hrec)]
      simp only [foldFields]
      cases applyField st ty v with
      | error e => rfl
      | ok st1 => exact ih st1
    · rw [List.filter_cons_of_neg (by simpa using hrec)]
      have := applyField_unrecognized st ty v (by simpa using hrec)
      simp only [foldFields, this]
      exact ih st

/-- C9 (amended): decoding an ErrorResponse requires the severity (S),
sqlstate (C) and message (M) fields; the internal-position field p requires
the internal-query field q only when no ordinary-position field P is present
(a P field short-circuits the check, which is the correction to the claim);
a failed decode gives client-error kind Parse rather than Db; and
unrecognized field tags are silently ignored. -/
theorem db_error_fields (fields : List (Nat × String)) :
    (fields.all (fun f => f.1 != 83) = true → exceptIsOk (dbErrorNew fields) = false)
    ∧ (fields.all (fun f => f.1 != 67) = true → exceptIsOk (dbErrorNew fields) = false)
    ∧ (fields.all (fun f => f.1 != 77) = true → exceptIsOk (dbErrorNew fields) = false)
    ∧ (fields.any (fun f => f.1 == 112) = true →
        fields.all (fun f => f.1 != 113) = true →
        fields.all (fun f => f.1 != 80) = true →
        exceptIsOk (dbErrorNew fields) = false)
    ∧ dbErrorNew (fields.filter (fun f => recognizedTag f.1)) = dbErrorNew fields
    ∧ (errorDb fields = .db ↔ exceptIsOk (dbErrorNew fields) = true) := by
  refine ⟨?_, ?_, ?_, ?_, ?_, ?_⟩
  · intro hall
    cases hf : foldFields {} fields with
    | error e => simp [dbErrorNew, hf, exceptIsOk]
    | ok st2 =>
      have hs : st2.severity = none := (foldFields_effects fields {} st2 hf).1 hall
      simp [dbErrorNew, hf, hs, exceptIsOk]
  · intro hall
    cases hf : foldFields {} fields with
    | error e => simp [dbErrorNew, hf, exceptIsOk]
    | ok st2 =>
      have hs : st2.code = none := (foldFields_effects fields {} st2 hf).2.1 hall
      cases h2 : st2.severity <;> simp [dbErrorNew, hf, hs, h2, exceptIsOk]
  · intro hall
    cases hf : foldFields {} fields with
    | error e => simp [dbErrorNew, hf, exceptIsOk]
    | ok st2 =>
      have hs : st2.message = none := (foldFields_effects fields {} st2 hf).2.2.1 hall
      cases h2 : st2.severity <;> cases h3 : st2.code <;>
        simp [dbErrorNew, hf, hs, h2, h3, exceptIsOk]
  · intro hany hall113 hall80
    cases hf : foldFields {} fields with
    | error e => simp [dbErrorNew, hf, exceptIsOk]
    | ok st2 =>
      have heff := foldFields_effects fields {} st2 hf
      have hnp : st2.normalPosition = none := heff.2.2.2.1 hall80
      have hiq : st2.internalQuery = none := heff.2.2.2.2.1 hall113
      have hip : st2.internalPosition.isSome = true := heff.2.2.2.2.2.2 hany
      obtain ⟨p, hp⟩ := Option.isSome_iff_exists.mp hip
      cases h2 : st2.severity <;> cases h3 : st2.code <;> cases h4 : st2.message <;>
        simp [dbErrorNew, hf, h2, h3, h4, hnp, hiq, hp, exceptIsOk]
  · unfold dbErrorNew
    rw [foldFields_filter]
  · unfold errorDb
    cases dbErrorNew fields <;> simp [exceptIsOk]

/-- Witness for the amended C9: a field list missing S fails the decode, and
an unrecognized tag (999) does not change the decode result. -/
theorem db_error_fields_witness :
    exceptIsOk (dbErrorNew [(67, "42601"), (77, "m")]) = false
    ∧ dbErrorNew ([(83, "ERROR"), (999, "zz"), (67, "28000"), (77, "mm")].filter
        (fun f => recognizedTag f.1)) =
      dbErrorNew [(83, "ERROR"), (999, "zz"), (67, "28000"), (77, "mm")] := by
  have h1 := db_error_fields [(67, "42601"), (77, "m")]
  have h2 := db_error_fields [(83, "ERROR"), (999, "zz"), (67, "28000"), (77, "mm")]
  exact ⟨h1.1 (by decide), h2.2.2.2.2.1⟩

/-- C9 counterexample: with S, C and M present plus both P and p but no q,
DbError construction succeeds and the error kind is Db, although the claim
requires failure (kind Parse) whenever p is present without q. -/
theorem db_error_p_without_q_counterexample :
    exceptIsOk (dbErrorNew
        [(83, "ERROR"), (67, "42601"), (77, "m"), (80, "1"), (112, "2")]) = true
    ∧ errorDb [(83, "ERROR"), (67, "42601"), (77, "m"), (80, "1"), (112, "2")] = .db
    ∧ ([(83, "ERROR"), (67, "42601"), (77, "m"), (80, "1"), (112, "2")].any
        (fun f => f.1 == 112)) = true
    ∧ ([(83, "ERROR"), (67, "42601"), (77, "m"), (80, "1"), (112, "2")].all
        (fun f => f.1 != 113)) = true := by
  decide

theorem position_some_spec {α : Type} (p : α → Bool) :
    ∀ (l : List α) (i : Nat), position p l = some i →
      ∃ x, l[i]? = some x ∧ p x = true
        ∧ ∀ j, j < i → ∀ y, l[j]? = some y → p y = false := by
  intro l
  induction l with
  | nil => intro i h; simp [position] at h
  | cons x xs ih =>
    intro i h
    simp only [position] at h
    by_cases hp : p x
    · rw [if_pos hp] at h
      obtain rfl := Option.some.inj h
      refine ⟨x, by simp, hp, ?_⟩
      intro j hj
      exact absurd hj (Nat.not_lt_zero j)
    · rw [if_neg hp] at h
      cases ho : position p xs with
      | none => rw [ho] at h; simp at h
      | some idx =>
        rw [ho] at h
        obtain rfl := Option.some.inj h
        obtain ⟨y, hy, hpy, hpre⟩ := ih idx ho
        refine ⟨y, by simpa using hy, hpy, ?_⟩
        intro j hj z hz
        cases j with
        | zero =>
          simp only [List.getElem?_cons_zero] at hz
          obtain rfl := Option.some.inj hz
          exact Bool.eq_false_iff.mpr hp
        | succ j2 =>
          exact hpre j2 (Nat.lt_of_succ_lt_succ hj) z (by simpa using hz)

theorem position_none_spec {α : Type} (p : α → Bool) :
    ∀ l : List α, position p l = none ↔ ∀ x ∈ l, p x = false := by
  intro l
  induction l with
  | nil => simp [position]
  | cons x xs ih =>
    simp only [position]
    by_cases hp : p x
    · rw [if_pos hp]
      simp [hp]
    · rw [if_neg hp]
      constructor
      · intro h y hy
        have hxs : position p xs = none := by
          cases ho : position p xs with
          | none => rfl
          | some idx => rw [ho] at h; simp at h
        rcases List.mem_cons.mp hy with rfl | hy
        · exact Bool.eq_false_iff.mpr hp
        · exact (ih.mp hxs) y hy
      · intro h
        have hxs : position p xs = none :=
          ih.mpr (fun y hy => h y (List.mem_cons_of_mem x hy))
        rw [hxs]
        rfl

/-- C10: indexing a row by column name resolves to the leftmost result
column whose name equals the given string exactly; when no column matches,
the index is None and get_opt yields the InvalidColumn error. -/
theorem row_index_by_name (stmt : Statement) (name : String)
    (data : List (Option Bytes)) :
    (∀ i, strIdx name stmt = some i →
      ∃ d, stmt.resultDesc[i]? = some d ∧ d.name = name
        ∧ ∀ j, j < i → ∀ d2, stmt.resultDesc[j]? = some d2 → d2.name ≠ name)
    ∧ (strIdx name stmt = none ↔ ∀ d ∈ stmt.resultDesc, d.name ≠ name)
    ∧ (strIdx name stmt = none →
        getOptIdx stmt data (strIdx name stmt) = .err .invalidColumn) := by
  refine ⟨?_, ?_, ?_⟩
  · intro i hi
    obtain ⟨d, hd, hpd, hpre⟩ := position_some_spec _ _ i hi
    refine ⟨d, hd, by simpa using hpd, ?_⟩
    intro j hj d2 hd2
    have := hpre j hj d2 hd2
    simpa using this
  · rw [strIdx, position_none_spec]
    constructor
    · intro h d hd
      simpa using h d hd
    · intro h d hd
      simpa using h d hd
  · intro h
    rw [h]
    rfl

/-- Witness for C10: a name that matches no column of the one-column
statement yields the InvalidColumn error. -/
theorem row_index_by_name_witness :
    getOptIdx stmtOneCol [none] (strIdx ("zzz") stmtOneCol) =
      .err .invalidColumn := by
  have h := row_index_by_name stmtOneCol ("zzz") [none]
  exact h.2.2 (by decide)

end RP

